import Mathlib

set_option autoImplicit false

namespace OpenLmi

/-!
Shallow embedding of the command-registration core of openlmi-scripts:
`lmi/scripts/common/command/meta.py` and the memoized hardware accessors in
`commands/hardware/lmi/scripts/hardware/__init__.py`.

Python class dictionaries (`dcl`) are embedded as a record of optional
attributes; metaclass `__new__` methods become functions on that record
returning `Except LmiError` (a raised construction error aborts class
creation).  Synthesized closures (`execute`, `render`, `check_result`) are
embedded symbolically -- the record stores which closure was installed and a
separate semantics function gives the behaviour of the closure; opaque Python
callables are represented by natural-number tokens resolved through an
environment function.
-/

/-- Python literal values occurring in the modelled attributes. -/
inductive PyLit where
  | noneV
  | boolV (b : Bool)
  | intV (n : Int)
  | strV (s : String)
deriving DecidableEq, Repr

/-- Python truthiness of a literal (`if not namespace: ...` and friends). -/
def PyLit.truthy : PyLit → Bool
  | .noneV => false
  | .boolV b => b
  | .intV n => decide (n ≠ 0)
  | .strV s => decide (s ≠ "")

/-- Python equality over the modelled literals; as in Python, a boolean
compares equal to the corresponding integer. -/
def pyEq : PyLit → PyLit → Bool
  | .noneV, .noneV => true
  | .boolV a, .boolV b => a == b
  | .boolV a, .intV n => (if a then (1 : Int) else 0) == n
  | .intV n, .boolV a => n == (if a then (1 : Int) else 0)
  | .intV a, .intV b => a == b
  | .strV a, .strV b => a == b
  | _, _ => false

/-- Errors raised by the construction pipeline (`lmi.scripts.common.errors`). -/
inductive LmiError where
  | commandError (module name msg : String)
  | invalidProperty (module name msg : String)
  | invalidName (module name cmdName : String)
  | invalidCallable (module name msg : String)
  | invalidCallableValue (msg : String)
  | importFailed (module name callableRef : String)
  | missingCallable (module name : String)
deriving DecidableEq, Repr

/-- Log messages emitted through `LOG()`. -/
inductive LogMsg where
  | warnNotPresent (prop path : String)
  | errRender (prop msg : String)
  | excRender (prop : String)
  | warnNoDescription (module name : String)
deriving DecidableEq, Repr

/-- The value of the `OWN_USAGE` attribute (`True`, `False` or a string). -/
inductive UsageVal where
  | trueU
  | falseU
  | strU (s : String)
deriving DecidableEq, Repr

/-- The value of the `CALLABLE` attribute: a direct callable (opaque token),
a `module:func` string reference, or some non-callable junk value. -/
inductive CallableAttr where
  | direct (f : Nat)
  | strRef (s : String)
  | badVal (tag : Nat)
deriving DecidableEq, Repr

/-- Abstract-or-concrete status of a method (`execute`, `render`) as seen on a
base class of the declaration. -/
inductive MethStatus where
  | abstractM
  | concreteM
deriving DecidableEq, Repr

/-- A base class of a declaration, reduced to the facts the metaclasses
inspect: whether its metaclass is (a subclass of) `MultiplexerMetaClass`, and
the status of its inherited `execute` and `render` methods. -/
structure BaseCls where
  metaIsMultiplexer : Bool
  execMeth : Option MethStatus
  renderMeth : Option MethStatus
deriving DecidableEq, Repr

/-- Modelled from the spec: `util.is_abstract_method` lives in
`lmi/scripts/common/command/util.py`, part of this repository but not among
the provided sources.  Both call sites pass `missing_is_abstract=True`; per
the spec (4.2, "first concrete definition wins" / "abstract unless defined"),
the method counts as abstract unless some base supplies a concrete
definition, a missing method counting as abstract. -/
def isAbstractMethod (statuses : List (Option MethStatus)) : Bool :=
  statuses.all (fun st => !(st == some MethStatus.concreteM))

/-- The `execute` attribute stored on a declaration or produced by binding:
either a hand-written concrete method (opaque token) or the closure
synthesized by `_make_execute_method` from an associated function and an
optional namespace. -/
inductive ExecuteAttr where
  | concreteE (tag : Nat)
  | boundE (f : Nat) (ns : Option PyLit)
deriving DecidableEq, Repr

/-- An element of a tuple/list entry inside `PROPERTIES`. -/
inductive RawElem where
  | strE (s : String)
  | callE (t : Nat)
  | otherE (tag : Nat)
deriving DecidableEq, Repr

/-- A raw entry of the `PROPERTIES` attribute before validation: a string,
a tuple/list of elements, or junk of another type. -/
inductive RawPropEntry where
  | strP (s : String)
  | tupP (elems : List RawElem)
  | otherP (tag : Nat)
deriving DecidableEq, Repr

/-- A validated `PROPERTIES` entry: a plain property name or a
`(name, transform)` pair, the transform an opaque callable token. -/
inductive PropEntry where
  | nameP (s : String)
  | pairP (s : String) (t : Nat)
deriving DecidableEq, Repr

/-- The `render` attribute: hand-written, the all-properties renderer, the
Python `None` value (see `showInstanceNew`), the fixed-list renderer closed
over its property list, or the dynamic renderer. -/
inductive RenderAttr where
  | concreteR (tag : Nat)
  | allPropsR
  | pyNoneR
  | withPropsR (props : List PropEntry)
  | dynamicR
deriving DecidableEq, Repr

/-- The `EXPECT` attribute: a callable predicate (opaque token) or a literal. -/
inductive ExpectAttr where
  | fnX (t : Nat)
  | litX (v : PyLit)
deriving DecidableEq, Repr

/-- The `check_result` attribute: hand-written, or one of the two closures
synthesized by `CheckResultMetaClass.__new__`. -/
inductive CheckAttr where
  | concreteC (tag : Nat)
  | fromFn (t : Nat)
  | fromLit (v : PyLit)
deriving DecidableEq, Repr

/-- A key of the `COMMANDS` dictionary: a string or junk of another type. -/
inductive DKey where
  | strK (s : String)
  | otherK (tag : Nat)
deriving DecidableEq, Repr

def DKey.isStr : DKey → Bool
  | .strK _ => true
  | .otherK _ => false

def DKey.asString : DKey → String
  | .strK s => s
  | .otherK _ => ""

/-- A value of the `COMMANDS` dictionary: a previously constructed command
class, reduced to the facts the multiplexer metaclass inspects and mutates. -/
structure ChildCls where
  isLmiBaseCommand : Bool
  is_end_point : Bool
  doc : Option String
  tag : Nat
deriving DecidableEq, Repr

/-- The value of the `COMMANDS` attribute: a dictionary (association list,
in iteration order) or junk of another type. -/
inductive CmdsVal where
  | dictV (entries : List (DKey × ChildCls))
  | nonDictV (tag : Nat)
deriving DecidableEq, Repr

/-- A Python class dictionary as the metaclasses see it: the author-supplied
declarative attributes plus the derived methods the pipeline installs.
`none` in an `Option` field means the key is absent from the dictionary
(the `doc` field models `__doc__`, which in Python 2 is always present,
possibly as `None`; `has_own_usage` defaults to the inherited `False`). -/
structure Dcl where
  module : String
  doc : Option String
  OWN_USAGE : Option UsageVal
  CALLABLE : Option CallableAttr
  NAMESPACE : Option PyLit
  PROPERTIES : Option (List RawPropEntry)
  DYNAMIC_PROPERTIES : Option PyLit
  EXPECT : Option ExpectAttr
  COMMANDS : Option CmdsVal
  execute : Option ExecuteAttr
  render : Option RenderAttr
  check_result : Option CheckAttr
  child_commands : Option (List (String × ChildCls))
  get_usage : Option String
  has_own_usage : Bool
deriving DecidableEq, Repr

/-- An empty declaration in the given module: no attribute set. -/
def emptyDcl (module : String) : Dcl :=
  { module := module, doc := none, OWN_USAGE := none, CALLABLE := none,
    NAMESPACE := none, PROPERTIES := none, DYNAMIC_PROPERTIES := none,
    EXPECT := none, COMMANDS := none, execute := none, render := none,
    check_result := none, child_commands := none, get_usage := none,
    has_own_usage := false }

def isIdentChar (c : Char) : Bool := c.isAlpha || c == '_'

def isIdentSeg (s : String) : Bool :=
  decide (s.length > 0) && s.toList.all isIdentChar

/-- Model of `RE_CALLABLE` from meta.py: a case-insensitive match of
`module(.module)*:func` where each segment is letters or underscores.
Returns the module path and function name on a match. -/
def matchCallable (s : String) : Option (String × String) :=
  match s.splitOn ":" with
  | [m, f] =>
      if (m.splitOn ".").all isIdentSeg && isIdentSeg f then some (m, f)
      else none
  | _ => none

/-- Modelled from the spec: `base.RE_COMMAND_NAME` lives in
`lmi/scripts/common/command/base.py`, part of this repository but not among
the provided sources.  Per the spec (4.1, 8): command names are made of
letters and underscores ("good_name" matches, "Bad Name!" does not). -/
def reCommandName (s : String) : Bool :=
  decide (s.length > 0) && s.toList.all (fun c => c.isAlpha || c == '_')

/-- Model of `_handle_usage` (meta.py 56-94).  `OWN_USAGE` is popped with default
`False`.  `True` requires a docstring, else `LmiCommandInvalidProperty`;
a string installs a `get_usage` override (the `__doc__` key always exists in
a Python 2 class dictionary, so the string is never stored as `__doc__`). -/
def handleUsage (name : String) (d : Dcl) : Except LmiError Dcl :=
  match d.OWN_USAGE with
  | some .trueU =>
      if d.doc.isNone then
        .error (.invalidProperty d.module name
          "OWN_USAGE set to True, but no doc string present")
      else
        .ok { d with OWN_USAGE := none, has_own_usage := true }
  | some (.strU s) =>
      .ok { d with
            OWN_USAGE := none,
            get_usage := if d.get_usage.isNone then some s else d.get_usage,
            has_own_usage := true }
  | some .falseU => .ok { d with OWN_USAGE := none }
  | none => .ok d

/-- Model of `_make_execute_method` (meta.py 96-121): when an associated function was
found and `execute` is abstract among the bases, delete `CALLABLE` and
install the synthesized `execute` closure (recorded symbolically together
with the captured namespace). -/
def makeExecuteMethod (bases : List BaseCls) (d : Dcl) (func : Option Nat)
    (ns : Option PyLit) : Dcl :=
  match func with
  | some f =>
      if isAbstractMethod (bases.map BaseCls.execMeth) then
        { d with CALLABLE := none, execute := some (.boundE f ns) }
      else d
  | none => d

/-- Resolution of the `CALLABLE` value inside `_handle_callable`
(meta.py 134-156).  `dcl.get` returns the value or `None` when absent, so
the `except KeyError` branch raising `LmiCommandMissingCallable` is dead
code: an absent `CALLABLE` resolves to no function at all.  The import
environment maps a module path and attribute name to a callable token. -/
def resolveCallable (imports : String → String → Option Nat)
    (name module : String) : Option CallableAttr → Except LmiError (Option Nat)
  | none => .ok none
  | some (.direct f) => .ok (some f)
  | some (.strRef s) =>
      match matchCallable s with
      | none =>
          .error (.invalidCallable module name
            "Callable has invalid format (colon expected)")
      | some (m, f) =>
          match imports m f with
          | none => .error (.importFailed module name s)
          | some tok => .ok (some tok)
  | some (.badVal _) =>
      .error (.invalidCallableValue "is not a callable object or function")

/-- Model of `_handle_callable` (meta.py 123-157): resolve `CALLABLE`, then hand the
result to `_make_execute_method`. -/
def handleCallable (imports : String → String → Option Nat) (name : String)
    (bases : List BaseCls) (d : Dcl) (ns : Option PyLit) :
    Except LmiError Dcl :=
  match resolveCallable imports name d.module d.CALLABLE with
  | .error e => .error e
  | .ok func => .ok (makeExecuteMethod bases d func ns)

/-- Model of `EndPointCommandMetaClass.__new__` (meta.py 170-175). -/
def endPointNew (imports : String → String → Option Nat) (name : String)
    (bases : List BaseCls) (d : Dcl) : Except LmiError Dcl :=
  match handleUsage name d with
  | .error e => .error e
  | .ok d1 => handleCallable imports name bases d1 none

/-- Lines 191-193 of meta.py: `NAMESPACE` is popped with default
`"root/cimv2"` and a falsy value (`False`, empty string, `None`, zero) is
replaced by `None`. -/
def sessionNamespace (v : Option PyLit) : Option PyLit :=
  let nsVal := v.getD (PyLit.strV "root/cimv2")
  if nsVal.truthy then some nsVal else none

/-- Model of `SessionCommandMetaClass.__new__` (meta.py 189-196): pop `NAMESPACE`
with default `"root/cimv2"`, map a falsy value to `None`, bind the callable
with that namespace, then run the end-point metaclass body (which handles
usage and `CALLABLE` a second time; both are no-ops when the first pass
consumed the attributes). -/
def sessionNew (imports : String → String → Option Nat) (name : String)
    (bases : List BaseCls) (d : Dcl) : Except LmiError Dcl :=
  match handleUsage name d with
  | .error e => .error e
  | .ok d1 =>
      match handleCallable imports name bases { d1 with NAMESPACE := none }
          (sessionNamespace d1.NAMESPACE) with
      | .error e => .error e
      | .ok d2 => endPointNew imports name bases d2

/-- Model of `ShowInstanceMetaClass._check_properties` check of a single `PROPERTIES`
entry (meta.py 246-258). -/
def checkEntry (module name : String) : RawPropEntry → Except LmiError Unit
  | .strP _ => .ok ()
  | .tupP es =>
      match es with
      | [RawElem.strE _, RawElem.callE _] => .ok ()
      | _ =>
          .error (.invalidProperty module name
            "tuples in PROPERTIES must be (name, callable)")
  | .otherP _ =>
      .error (.invalidProperty module name
        "PROPERTIES must be a list of strings or tuples")

/-- The loop of `ShowInstanceMetaClass._check_properties` (meta.py 235-258);
a `None` value for `PROPERTIES` passes vacuously. -/
def checkProps (module name : String) : List RawPropEntry → Except LmiError Unit
  | [] => .ok ()
  | p :: rest =>
      match checkEntry module name p with
      | .error e => .error e
      | .ok _ => checkProps module name rest

def checkPropertiesAttr (module name : String) :
    Option (List RawPropEntry) → Except LmiError Unit
  | none => .ok ()
  | some ps => checkProps module name ps

/-- A validated `PROPERTIES` entry viewed as the renderer sees it at run
time: strings take the plain-name branch, `(name, transform)` tuples the
transform branch.  Only applied after `_check_properties` succeeded, so the
catch-all is unreachable. -/
def toPropEntry : RawPropEntry → PropEntry
  | .strP s => .nameP s
  | .tupP [RawElem.strE s, RawElem.callE t] => .pairP s t
  | _ => .nameP ""

/-- Model of `ShowInstanceMetaClass._make_render_all_properties` (meta.py 260-281):
the Python method installs the all-properties renderer into the class
dictionary when `render` is abstract among the bases, and -- having no
return statement -- returns the Python value `None`. -/
def makeRenderAllProperties (bases : List BaseCls) (d : Dcl) : Dcl × PyLit :=
  if isAbstractMethod (bases.map BaseCls.renderMeth) then
    ({ d with render := some RenderAttr.allPropsR }, PyLit.noneV)
  else (d, PyLit.noneV)

/-- Model of `ShowInstanceMetaClass.__new__` (meta.py 325-345).  Note the source line
`dcl[.render.] = mcs._make_render_all_properties(bases, dcl)`: the method
returns `None`, so in the default branch the `render` attribute ends up
holding the Python `None` value, overwriting the renderer the helper just
installed; the model records this faithfully as `RenderAttr.pyNoneR`. -/
def showInstanceNew (imports : String → String → Option Nat) (name : String)
    (bases : List BaseCls) (d : Dcl) : Except LmiError Dcl :=
  let dyn := (d.DYNAMIC_PROPERTIES.getD (PyLit.boolV false)).truthy
  if dyn && d.PROPERTIES.isSome then
    .error (.commandError d.module name
      "DYNAMIC_PROPERTIES and PROPERTIES are mutually exclusive")
  else
    let props := d.PROPERTIES
    let d1 := { d with DYNAMIC_PROPERTIES := none, PROPERTIES := none }
    match checkPropertiesAttr d1.module name props with
    | .error e => .error e
    | .ok _ =>
        let d2 :=
          match props, dyn with
          | none, false =>
              let built := makeRenderAllProperties bases d1
              { built.1 with render := some RenderAttr.pyNoneR }
          | none, true => { d1 with render := some RenderAttr.dynamicR }
          | some ps, _ =>
              { d1 with render := some (RenderAttr.withPropsR (ps.map toPropEntry)) }
        sessionNew imports name bases d2

/-- Model of `CheckResultMetaClass.__new__`, the `EXPECT` transformation part
(meta.py 360-383): a callable `EXPECT` becomes the predicate-based
`check_result` closure, any other value the equality-based one; an absent
`EXPECT` is left for a subclass to supply. -/
def checkResultProcess (d : Dcl) : Dcl :=
  match d.EXPECT with
  | some (.fnX t) => { d with EXPECT := none, check_result := some (.fromFn t) }
  | some (.litX v) => { d with EXPECT := none, check_result := some (.fromLit v) }
  | none => d

/-- Model of `CheckResultMetaClass.__new__` (meta.py 359-385): transform `EXPECT`,
then run the session metaclass body. -/
def checkResultNew (imports : String → String → Option Nat) (name : String)
    (bases : List BaseCls) (d : Dcl) : Except LmiError Dcl :=
  sessionNew imports name bases (checkResultProcess d)

/-- A raw result passed to `check_result`: either a plain value or an
`LMIReturnValue` container.  Modelled from the spec: `LMIReturnValue` comes
from the external `lmi.shell` library; it is a structured return-value
container whose inner value is its `rval` field. -/
inductive RVal where
  | plainR (v : PyLit)
  | lmiReturnValue (rval : PyLit)
deriving DecidableEq, Repr

def unwrapResult : RVal → PyLit
  | .plainR v => v
  | .lmiReturnValue v => v

/-- Run-time behaviour of a `check_result` attribute (the closures built at
meta.py 363-378).  `predEnv` resolves a predicate token to its function of
`(options, value)`; options are opaque tokens.  A hand-written method has
behaviour outside the model (`none`). -/
def runCheckResult (predEnv : Nat → Nat → PyLit → Bool) (c : CheckAttr)
    (options : Nat) (result : RVal) : Option Bool :=
  match c with
  | .concreteC _ => none
  | .fromFn t => some (predEnv t options (unwrapResult result))
  | .fromLit v => some (pyEq v (unwrapResult result))

/-- A connection value at invocation time.  Modelled from the spec:
`LMIUtil.lmi_wrap_cim_namespace` from the external `lmi.shell` library wraps
a connection into a namespace-scoped handle. -/
inductive ConnVal where
  | rawConn (n : Nat)
  | nsHandle (c : ConnVal) (ns : PyLit)
deriving DecidableEq, Repr

def lmiWrapCimNamespace (c : ConnVal) (ns : PyLit) : ConnVal :=
  ConnVal.nsHandle c ns

/-- Run-time behaviour of an `execute` attribute (the closures built at
meta.py 111-121): the synthesized closure passes either the
namespace-wrapped or the raw connection to the associated function and
returns which function was invoked on which connection argument.  A
hand-written method has behaviour outside the model (`none`). -/
def runExecute (e : ExecuteAttr) (connection : ConnVal) :
    Option (Nat × ConnVal) :=
  match e with
  | .concreteE _ => none
  | .boundE f (some ns) => some (f, lmiWrapCimNamespace connection ns)
  | .boundE f none => some (f, connection)

/-- A CIM instance as the fixed-list renderer sees it: its property table
(name in `inst.properties()` and `getattr` both go through it, per the
external `lmi.shell` `LMIInstance` contract) and its `path` used in the
warning message. -/
structure CIMInstance where
  props : List (String × PyLit)
  path : String
deriving DecidableEq, Repr

def lookupProp (inst : CIMInstance) (s : String) : Option PyLit :=
  inst.props.lookup s

/-- One iteration of the loop in the `_render` closure built by
`ShowInstanceMetaClass._make_render_with_properties` (meta.py 292-323):
a plain name is looked up on the instance, warning and yielding "UNKNOWN"
when absent; a `(name, transform)` pair applies the transform (resolved
through `tf`), catching any raised exception and yielding "ERROR" while
logging (the full traceback only in debug mode). -/
def renderEntry (tf : Nat → CIMInstance → Except String PyLit) (debug : Bool)
    (inst : CIMInstance) : PropEntry → (String × PyLit) × List LogMsg
  | .nameP s =>
      match lookupProp inst s with
      | some v => ((s, v), [])
      | none => ((s, PyLit.strV "UNKNOWN"), [.warnNotPresent s inst.path])
  | .pairP s t =>
      match tf t inst with
      | .ok v => ((s, v), [])
      | .error msg =>
          ((s, PyLit.strV "ERROR"),
           [if debug then LogMsg.excRender s else LogMsg.errRender s msg])

/-- The `_render` closure built by
`ShowInstanceMetaClass._make_render_with_properties` (meta.py 292-323):
column names and values are appended in declared order; log messages
accumulate alongside. -/
def renderWithProperties (tf : Nat → CIMInstance → Except String PyLit)
    (debug : Bool) (inst : CIMInstance) :
    List PropEntry → (List String × List PyLit) × List LogMsg
  | [] => (([], []), [])
  | p :: rest =>
      let e := renderEntry tf debug inst p
      let r := renderWithProperties tf debug inst rest
      ((e.1.1 :: r.1.1, e.1.2 :: r.1.2), e.2 ++ r.2)

/-- The column name an entry contributes. -/
def entryColumn : PropEntry → String
  | .nameP s => s
  | .pairP s _ => s

/-- Model of `MultiplexerMetaClass.is_root_multiplexer` (meta.py 396-410): true iff
no base class has `MultiplexerMetaClass` (or a subclass) as its metaclass. -/
def is_root_multiplexer (bases : List BaseCls) : Bool :=
  bases.all (fun bcls => !bcls.metaIsMultiplexer)

/-- One iteration of the `COMMANDS` loop in `MultiplexerMetaClass.__new__`
(meta.py 427-437): reject a key failing the command-name pattern, reject a
value that is not an `LmiBaseCommand` subclass, and set a non-end-point
child command class documentation to the parent declaration documentation
(an in-place mutation of the child class in the source).  Non-string keys
were rejected before the loop, so that branch is unreachable. -/
def processChild (module name : String) (parentDoc : Option String) :
    DKey × ChildCls → Except LmiError (String × ChildCls)
  | (DKey.strK cmd_name, cmd) =>
      if !reCommandName cmd_name then
        .error (.invalidName module name cmd_name)
      else if !cmd.isLmiBaseCommand then
        .error (.commandError module name
          "COMMANDS dictionary must be composed of LmiCommandBase subclasses")
      else if !cmd.is_end_point then
        .ok (cmd_name, { cmd with doc := parentDoc })
      else
        .ok (cmd_name, cmd)
  | (DKey.otherK _, _) =>
      .error (.invalidProperty module name
        "keys of COMMANDS dictionary must contain command names as strings")

def processChildren (module name : String) (parentDoc : Option String) :
    List (DKey × ChildCls) → Except LmiError (List (String × ChildCls))
  | [] => .ok []
  | e :: rest =>
      match processChild module name parentDoc e with
      | .error err => .error err
      | .ok c =>
          match processChildren module name parentDoc rest with
          | .error err => .error err
          | .ok cs => .ok (c :: cs)

/-- Model of `MultiplexerMetaClass.__new__` (meta.py 412-450).  The `COMMANDS`
validation, documentation propagation, `child_commands` installation, the
missing-description warning and `_handle_usage` all sit in the
`if not mcs.is_root_multiplexer(bases)` branch; a declaration with no
multiplexer among its bases takes the trivial path. -/
def multiplexerNew (name : String) (bases : List BaseCls) (d : Dcl) :
    Except LmiError (Dcl × List LogMsg) :=
  if !is_root_multiplexer bases then
    match d.COMMANDS with
    | none => .error (.commandError d.module name "missing COMMANDS property")
    | some (.nonDictV _) =>
        .error (.invalidProperty d.module name "COMMANDS must be a dictionary")
    | some (.dictV entries) =>
        if !entries.all (fun e => e.1.isStr) then
          .error (.invalidProperty d.module name
            "keys of COMMANDS dictionary must contain command names as strings")
        else
          match processChildren d.module name d.doc entries with
          | .error e => .error e
          | .ok cmds =>
              let d1 := { d with COMMANDS := none, child_commands := some cmds }
              let logs :=
                if d1.doc.isNone then [LogMsg.warnNoDescription d.module name]
                else []
              match handleUsage name d1 with
              | .error e => .error e
              | .ok d2 => .ok (d2, logs)
  else
    .ok (d, [])

/-- Result of one `_cache_replies` call: the returned reply, the function
attribute state afterwards, and how many protocol invocations
(`getattr(i, method)()`) the call performed. -/
structure CacheCall where
  value : Nat
  state : Option (Nat × List ((String × String) × Nat))
  protocolCalls : Nat
deriving DecidableEq, Repr

/-- Model of `_cache_replies` from `commands/hardware/lmi/scripts/hardware/__init__.py`
(lines 33-52).  The namespace object is identified by an identity token
(Python `is`); `query` models `getattr(getattr(ns, class_name), method)()`.
The cache is a function attribute holding the last namespace identity and a
dictionary keyed by `(class_name, method)`; a different namespace identity
clears the whole dictionary before repopulating. -/
def cacheReplies (query : Nat → String → String → Nat) (ns : Nat)
    (class_name method : String)
    (st : Option (Nat × List ((String × String) × Nat))) : CacheCall :=
  let start := st.getD (ns, [])
  let cache := if start.1 ≠ ns then [] else start.2
  match cache.lookup (class_name, method) with
  | some v => { value := v, state := some (ns, cache), protocolCalls := 0 }
  | none =>
      let v := query ns class_name method
      { value := v, state := some (ns, ((class_name, method), v) :: cache),
        protocolCalls := 1 }

/-- Model of `get_single_instance` (hardware/__init__.py 54-63). -/
def get_single_instance (query : Nat → String → String → Nat) (ns : Nat)
    (class_name : String)
    (st : Option (Nat × List ((String × String) × Nat))) : CacheCall :=
  cacheReplies query ns class_name "first_instance" st

/-- Model of `get_all_instances` (hardware/__init__.py 65-74). -/
def get_all_instances (query : Nat → String → String → Nat) (ns : Nat)
    (class_name : String)
    (st : Option (Nat × List ((String × String) × Nat))) : CacheCall :=
  cacheReplies query ns class_name "instances" st

/-- The per-child effect of the `COMMANDS` loop on a successfully validated
entry: a non-end-point child class has its documentation replaced by the
parent declaration documentation (unconditionally), an end-point child is
left untouched. -/
def mutateChild (parentDoc : Option String) (c : ChildCls) : ChildCls :=
  if c.is_end_point then c else { c with doc := parentDoc }

/-- How many of the three render strategies (all-properties, fixed-list,
dynamic) a `render` attribute embodies. -/
def strategyCount : Option RenderAttr → Nat
  | some .allPropsR => 1
  | some (.withPropsR _) => 1
  | some .dynamicR => 1
  | _ => 0

/-! Concrete fixtures shared by witnesses and counterexamples. -/

/-- An import environment resolving nothing. -/
def noImports : String → String → Option Nat := fun _ _ => none

/-- A base class whose `execute` and `render` are abstract. -/
def baseAbstract : BaseCls :=
  { metaIsMultiplexer := false, execMeth := some .abstractM,
    renderMeth := some .abstractM }

/-- A base class supplying a concrete `execute`. -/
def baseConcreteExec : BaseCls :=
  { metaIsMultiplexer := false, execMeth := some .concreteM,
    renderMeth := some .abstractM }

/-- An already-constructed multiplexer command class used as a base. -/
def baseMultiplexer : BaseCls :=
  { metaIsMultiplexer := true, execMeth := none, renderMeth := none }

/-- A child command class that is itself a node and has documentation of its
own. -/
def kidNode : ChildCls :=
  { isLmiBaseCommand := true, is_end_point := false, doc := some "childdoc",
    tag := 1 }

/-- A leaf child command class with documentation of its own. -/
def kidLeaf : ChildCls :=
  { isLmiBaseCommand := true, is_end_point := true, doc := some "leafdoc",
    tag := 2 }

/-! Helper lemmas about the hardware reply cache. -/

theorem cacheReplies_calls_le_one (query : Nat → String → String → Nat)
    (ns : Nat) (class_name method : String)
    (st : Option (Nat × List ((String × String) × Nat))) :
    (cacheReplies query ns class_name method st).protocolCalls ≤ 1 := by
  simp only [cacheReplies]
  split <;> simp

theorem cacheReplies_hit (query : Nat → String → String → Nat) (ns : Nat)
    (class_name method : String) (c : List ((String × String) × Nat)) (v : Nat)
    (h : c.lookup (class_name, method) = some v) :
    cacheReplies query ns class_name method (some (ns, c)) =
      { value := v, state := some (ns, c), protocolCalls := 0 } := by
  simp [cacheReplies, h]

theorem cacheReplies_state_lookup (query : Nat → String → String → Nat)
    (ns : Nat) (class_name method : String)
    (st : Option (Nat × List ((String × String) × Nat))) :
    ∃ c, (cacheReplies query ns class_name method st).state = some (ns, c) ∧
      c.lookup (class_name, method) =
        some (cacheReplies query ns class_name method st).value := by
  simp only [cacheReplies]
  split
  · exact ⟨_, rfl, by assumption⟩
  · exact ⟨_, rfl, by simp⟩

/-- C10: for the memoized accessors `get_single_instance` and
`get_all_instances`, two successive calls with the same namespace object and
the same class name perform at most one protocol invocation in total and
both return the same cached value; a call with a different namespace object
clears the entire cache (all class/method entries) before repopulating, so
the new state holds only the freshly queried entry. -/
theorem hardware_cache_memoization (query : Nat → String → String → Nat)
    (ns : Nat) (class_name : String)
    (st : Option (Nat × List ((String × String) × Nat)))
    (ns1 : Nat) (cache1 : List ((String × String) × Nat)) :
    ((get_single_instance query ns class_name st).protocolCalls +
       (get_single_instance query ns class_name
          (get_single_instance query ns class_name st).state).protocolCalls ≤ 1 ∧
     (get_single_instance query ns class_name
        (get_single_instance query ns class_name st).state).value =
       (get_single_instance query ns class_name st).value) ∧
    ((get_all_instances query ns class_name st).protocolCalls +
       (get_all_instances query ns class_name
          (get_all_instances query ns class_name st).state).protocolCalls ≤ 1 ∧
     (get_all_instances query ns class_name
        (get_all_instances query ns class_name st).state).value =
       (get_all_instances query ns class_name st).value) ∧
    (st = some (ns1, cache1) → ns1 ≠ ns →
       get_single_instance query ns class_name st =
         { value := query ns class_name "first_instance",
           state := some (ns, [((class_name, "first_instance"),
                                 query ns class_name "first_instance")]),
           protocolCalls := 1 }) := by
  refine ⟨?_, ?_, ?_⟩
  · obtain ⟨c, hs, hl⟩ :=
      cacheReplies_state_lookup query ns class_name "first_instance" st
    unfold get_single_instance
    rw [hs, cacheReplies_hit query ns class_name "first_instance" c _ hl]
    exact ⟨by simpa using
      cacheReplies_calls_le_one query ns class_name "first_instance" st, rfl⟩
  · obtain ⟨c, hs, hl⟩ :=
      cacheReplies_state_lookup query ns class_name "instances" st
    unfold get_all_instances
    rw [hs, cacheReplies_hit query ns class_name "instances" c _ hl]
    exact ⟨by simpa using
      cacheReplies_calls_le_one query ns class_name "instances" st, rfl⟩
  · intro hst hne
    subst hst
    simp [get_single_instance, cacheReplies, hne]

/-- Witness for C10 at concrete inputs: from a cache populated under
namespace identity 1, a call under namespace identity 2 re-queries and
leaves exactly the one fresh entry. -/
theorem hardware_cache_memoization_witness :
    (some (1, [(("LMI_Chassis", "first_instance"), 99)]) :
        Option (Nat × List ((String × String) × Nat))) =
      some (1, [(("LMI_Chassis", "first_instance"), 99)]) ∧
    (1 : Nat) ≠ 2 ∧
    get_single_instance (fun n _ _ => 100 + n) 2 "LMI_Chassis"
        (some (1, [(("LMI_Chassis", "first_instance"), 99)])) =
      { value := 102,
        state := some (2, [(("LMI_Chassis", "first_instance"), 102)]),
        protocolCalls := 1 } :=
  ⟨rfl, by decide,
    (hardware_cache_memoization (fun n _ _ => 100 + n) 2 "LMI_Chassis"
        (some (1, [(("LMI_Chassis", "first_instance"), 99)])) 1
        [(("LMI_Chassis", "first_instance"), 99)]).2.2 rfl (by decide)⟩

/-! Helper lemmas about the fixed-list renderer. -/

theorem renderEntry_column (tf : Nat → CIMInstance → Except String PyLit)
    (debug : Bool) (inst : CIMInstance) (p : PropEntry) :
    (renderEntry tf debug inst p).1.1 = entryColumn p := by
  cases p <;> simp only [renderEntry, entryColumn] <;> split <;> rfl

theorem renderWithProperties_eq (tf : Nat → CIMInstance → Except String PyLit)
    (debug : Bool) (inst : CIMInstance) (props : List PropEntry) :
    renderWithProperties tf debug inst props =
      ((props.map entryColumn,
        props.map fun p => (renderEntry tf debug inst p).1.2),
       (props.map fun p => (renderEntry tf debug inst p).2).flatten) := by
  induction props with
  | nil => rfl
  | cons p rest ih => simp [renderWithProperties, ih, renderEntry_column]

/-- C5: a fixed-list render whose `PROPERTIES` contains a
`(name, transform)` pair whose transform raises does not propagate the
exception: the whole column list and value list are still produced in
declared order (each entry rendered by its own branch), and the value at
the failing pair position is the sentinel "ERROR" under its declared
column name. -/
theorem render_transform_failure_isolated
    (tf : Nat → CIMInstance → Except String PyLit) (debug : Bool)
    (inst : CIMInstance) (props : List PropEntry) (i t : Nat) (s msg : String)
    (hp : props[i]? = some (.pairP s t))
    (hf : tf t inst = .error msg) :
    (renderWithProperties tf debug inst props).1.1 = props.map entryColumn ∧
    (renderWithProperties tf debug inst props).1.2 =
      props.map (fun p => (renderEntry tf debug inst p).1.2) ∧
    (renderWithProperties tf debug inst props).1.1[i]? = some s ∧
    (renderWithProperties tf debug inst props).1.2[i]? =
      some (PyLit.strV "ERROR") := by
  refine ⟨by simp [renderWithProperties_eq], by simp [renderWithProperties_eq],
    ?_, ?_⟩
  · rw [renderWithProperties_eq]
    simp [List.getElem?_map, hp, entryColumn]
  · rw [renderWithProperties_eq]
    simp [List.getElem?_map, hp, renderEntry, hf]

/-- Witness for C5: with `PROPERTIES = [A, (X, transform 0)]` where
transform 0 raises, rendering yields "ERROR" for X and renders A normally. -/
theorem render_transform_failure_isolated_witness :
    ([PropEntry.nameP "A", PropEntry.pairP "X" 0][1]? =
       some (PropEntry.pairP "X" 0)) ∧
    ((fun t (_ : CIMInstance) =>
        if t == 0 then Except.error "boom" else Except.ok (PyLit.intV 9)) 0
        { props := [("A", PyLit.intV 4)], path := "p" } =
      Except.error "boom") ∧
    ((renderWithProperties
        (fun t _ => if t == 0 then Except.error "boom" else Except.ok (PyLit.intV 9))
        false { props := [("A", PyLit.intV 4)], path := "p" }
        [PropEntry.nameP "A", PropEntry.pairP "X" 0]).1.1 =
       [PropEntry.nameP "A", PropEntry.pairP "X" 0].map entryColumn ∧
     (renderWithProperties
        (fun t _ => if t == 0 then Except.error "boom" else Except.ok (PyLit.intV 9))
        false { props := [("A", PyLit.intV 4)], path := "p" }
        [PropEntry.nameP "A", PropEntry.pairP "X" 0]).1.2 =
       [PropEntry.nameP "A", PropEntry.pairP "X" 0].map
         (fun p => (renderEntry
            (fun t _ => if t == 0 then Except.error "boom" else Except.ok (PyLit.intV 9))
            false { props := [("A", PyLit.intV 4)], path := "p" } p).1.2) ∧
     (renderWithProperties
        (fun t _ => if t == 0 then Except.error "boom" else Except.ok (PyLit.intV 9))
        false { props := [("A", PyLit.intV 4)], path := "p" }
        [PropEntry.nameP "A", PropEntry.pairP "X" 0]).1.1[1]? = some "X" ∧
     (renderWithProperties
        (fun t _ => if t == 0 then Except.error "boom" else Except.ok (PyLit.intV 9))
        false { props := [("A", PyLit.intV 4)], path := "p" }
        [PropEntry.nameP "A", PropEntry.pairP "X" 0]).1.2[1]? =
       some (PyLit.strV "ERROR")) :=
  ⟨rfl, rfl,
    render_transform_failure_isolated
      (fun t _ => if t == 0 then Except.error "boom" else Except.ok (PyLit.intV 9))
      false { props := [("A", PyLit.intV 4)], path := "p" }
      [PropEntry.nameP "A", PropEntry.pairP "X" 0] 1 0 "X" "boom" rfl rfl⟩

/-- C6: a fixed-list render containing a plain property name that the
instance lacks does not raise: a warning is logged and the value at that
position is the sentinel "UNKNOWN" under the declared column name. -/
theorem render_missing_property_unknown
    (tf : Nat → CIMInstance → Except String PyLit) (debug : Bool)
    (inst : CIMInstance) (props : List PropEntry) (i : Nat) (s : String)
    (hp : props[i]? = some (.nameP s))
    (hm : lookupProp inst s = none) :
    (renderWithProperties tf debug inst props).1.1[i]? = some s ∧
    (renderWithProperties tf debug inst props).1.2[i]? =
      some (PyLit.strV "UNKNOWN") ∧
    LogMsg.warnNotPresent s inst.path ∈
      (renderWithProperties tf debug inst props).2 := by
  refine ⟨?_, ?_, ?_⟩
  · rw [renderWithProperties_eq]
    simp [List.getElem?_map, hp, entryColumn]
  · rw [renderWithProperties_eq]
    simp [List.getElem?_map, hp, renderEntry, hm]
  · rw [renderWithProperties_eq]
    exact List.mem_flatten.2
      ⟨[LogMsg.warnNotPresent s inst.path],
        List.mem_map.2 ⟨_, List.getElem?_mem hp, by simp [renderEntry, hm]⟩,
        by simp⟩

/-- Witness for C6: an instance with no properties rendered with
`PROPERTIES = [Foo]` yields column "Foo", value "UNKNOWN", and the warning. -/
theorem render_missing_property_unknown_witness :
    ([PropEntry.nameP "Foo"][0]? = some (PropEntry.nameP "Foo")) ∧
    (lookupProp { props := [], path := "pth" } "Foo" = none) ∧
    ((renderWithProperties (fun _ _ => Except.ok PyLit.noneV) false
        { props := [], path := "pth" } [PropEntry.nameP "Foo"]).1.1[0]? =
       some "Foo" ∧
     (renderWithProperties (fun _ _ => Except.ok PyLit.noneV) false
        { props := [], path := "pth" } [PropEntry.nameP "Foo"]).1.2[0]? =
       some (PyLit.strV "UNKNOWN") ∧
     LogMsg.warnNotPresent "Foo" "pth" ∈
       (renderWithProperties (fun _ _ => Except.ok PyLit.noneV) false
          { props := [], path := "pth" } [PropEntry.nameP "Foo"]).2) :=
  ⟨rfl, rfl,
    render_missing_property_unknown (fun _ _ => Except.ok PyLit.noneV) false
      { props := [], path := "pth" } [PropEntry.nameP "Foo"] 0 "Foo" rfl rfl⟩

/-! Preservation lemmas: the usage and callable handlers never touch the
`check_result`, `child_commands` or `render` attributes. -/

theorem makeExecuteMethod_preserves (bases : List BaseCls) (d : Dcl)
    (func : Option Nat) (ns : Option PyLit) :
    (makeExecuteMethod bases d func ns).check_result = d.check_result ∧
    (makeExecuteMethod bases d func ns).child_commands = d.child_commands ∧
    (makeExecuteMethod bases d func ns).render = d.render ∧
    (makeExecuteMethod bases d func ns).OWN_USAGE = d.OWN_USAGE := by
  unfold makeExecuteMethod
  cases func with
  | none => exact ⟨rfl, rfl, rfl, rfl⟩
  | some f =>
      dsimp only
      split <;> exact ⟨rfl, rfl, rfl, rfl⟩

theorem handleUsage_ok_preserves {name : String} {d d2 : Dcl}
    (h : handleUsage name d = .ok d2) :
    d2.check_result = d.check_result ∧ d2.child_commands = d.child_commands ∧
    d2.render = d.render ∧ d2.execute = d.execute ∧
    d2.CALLABLE = d.CALLABLE ∧ d2.NAMESPACE = d.NAMESPACE := by
  cases hu : d.OWN_USAGE with
  | none =>
      simp only [handleUsage, hu, Except.ok.injEq] at h
      subst h
      exact ⟨rfl, rfl, rfl, rfl, rfl, rfl⟩
  | some u =>
      cases u with
      | trueU =>
          simp only [handleUsage, hu] at h
          split at h
          · exact absurd h (by simp)
          · simp only [Except.ok.injEq] at h
            subst h
            exact ⟨rfl, rfl, rfl, rfl, rfl, rfl⟩
      | falseU =>
          simp only [handleUsage, hu, Except.ok.injEq] at h
          subst h
          exact ⟨rfl, rfl, rfl, rfl, rfl, rfl⟩
      | strU s =>
          simp only [handleUsage, hu, Except.ok.injEq] at h
          subst h
          exact ⟨rfl, rfl, rfl, rfl, rfl, rfl⟩

theorem handleCallable_ok_preserves {imports : String → String → Option Nat}
    {name : String} {bases : List BaseCls} {d : Dcl} {ns : Option PyLit}
    {d2 : Dcl} (h : handleCallable imports name bases d ns = .ok d2) :
    d2.check_result = d.check_result ∧ d2.child_commands = d.child_commands ∧
    d2.render = d.render ∧ d2.OWN_USAGE = d.OWN_USAGE := by
  unfold handleCallable at h
  cases hr : resolveCallable imports name d.module d.CALLABLE with
  | error e => rw [hr] at h; exact absurd h (by simp)
  | ok func =>
      rw [hr] at h
      simp only [Except.ok.injEq] at h
      subst h
      exact ⟨(makeExecuteMethod_preserves bases d func ns).1,
        (makeExecuteMethod_preserves bases d func ns).2.1,
        (makeExecuteMethod_preserves bases d func ns).2.2.1,
        (makeExecuteMethod_preserves bases d func ns).2.2.2⟩

theorem endPointNew_ok_preserves {imports : String → String → Option Nat}
    {name : String} {bases : List BaseCls} {d d2 : Dcl}
    (h : endPointNew imports name bases d = .ok d2) :
    d2.check_result = d.check_result ∧ d2.child_commands = d.child_commands ∧
    d2.render = d.render := by
  unfold endPointNew at h
  cases hu : handleUsage name d with
  | error e => rw [hu] at h; exact absurd h (by simp)
  | ok d1 =>
      rw [hu] at h
      exact ⟨(handleCallable_ok_preserves h).1.trans (handleUsage_ok_preserves hu).1,
        (handleCallable_ok_preserves h).2.1.trans (handleUsage_ok_preserves hu).2.1,
        (handleCallable_ok_preserves h).2.2.1.trans (handleUsage_ok_preserves hu).2.2.1⟩

theorem sessionNew_ok_preserves {imports : String → String → Option Nat}
    {name : String} {bases : List BaseCls} {d d2 : Dcl}
    (h : sessionNew imports name bases d = .ok d2) :
    d2.check_result = d.check_result ∧ d2.child_commands = d.child_commands ∧
    d2.render = d.render := by
  unfold sessionNew at h
  cases hu : handleUsage name d with
  | error e => rw [hu] at h; exact absurd h (by simp)
  | ok d1 =>
      rw [hu] at h
      dsimp only at h
      cases hc : handleCallable imports name bases { d1 with NAMESPACE := none }
          (sessionNamespace d1.NAMESPACE) with
      | error e => rw [hc] at h; exact absurd h (by simp)
      | ok dm =>
          rw [hc] at h
          refine ⟨?_, ?_, ?_⟩
          · exact ((endPointNew_ok_preserves h).1.trans
              (handleCallable_ok_preserves hc).1).trans
              (handleUsage_ok_preserves hu).1
          · exact ((endPointNew_ok_preserves h).2.1.trans
              (handleCallable_ok_preserves hc).2.1).trans
              (handleUsage_ok_preserves hu).2.1
          · exact ((endPointNew_ok_preserves h).2.2.trans
              (handleCallable_ok_preserves hc).2.2.1).trans
              (handleUsage_ok_preserves hu).2.2.1

/-- A check-result declaration with a literal `EXPECT` of 42 and a direct
associated function. -/
def dclExpect42 : Dcl :=
  { emptyDcl "m" with
    CALLABLE := some (.direct 5),
    EXPECT := some (.litX (.intV 42)) }

/-- The class `checkResultNew` builds from `dclExpect42` with no imports,
command name "Check", and an abstract base. -/
def drExpect42 : Dcl :=
  { emptyDcl "m" with
    execute := some (.boundE 5 (some (.strV "root/cimv2"))),
    check_result := some (.fromLit (.intV 42)) }

/-- C4: the `check_result` synthesized from `EXPECT` by
`CheckResultMetaClass.__new__` unwraps an `LMIReturnValue` container to its
inner value and then either returns exactly `EXPECT(options, value)` when
`EXPECT` is callable, or tests equality of the unwrapped value with the
literal `EXPECT` otherwise; a successful construction stores exactly that
closure on the class. -/
theorem check_result_expect_semantics
    (imports : String → String → Option Nat) (name : String)
    (bases : List BaseCls) (d dr : Dcl) (predEnv : Nat → Nat → PyLit → Bool)
    (options t : Nat) (v : PyLit) (result : RVal) :
    (d.EXPECT = some (.fnX t) →
       (checkResultProcess d).check_result = some (.fromFn t) ∧
       (checkResultNew imports name bases d = .ok dr →
          dr.check_result = some (.fromFn t)) ∧
       runCheckResult predEnv (CheckAttr.fromFn t) options result =
         some (predEnv t options (unwrapResult result))) ∧
    (d.EXPECT = some (.litX v) →
       (checkResultProcess d).check_result = some (.fromLit v) ∧
       (checkResultNew imports name bases d = .ok dr →
          dr.check_result = some (.fromLit v)) ∧
       (runCheckResult predEnv (CheckAttr.fromLit v) options result = some true ↔
          pyEq v (unwrapResult result) = true)) := by
  constructor
  · intro ht
    have hp : (checkResultProcess d).check_result = some (.fromFn t) := by
      simp [checkResultProcess, ht]
    refine ⟨hp, ?_, rfl⟩
    intro hok
    unfold checkResultNew at hok
    exact ((sessionNew_ok_preserves hok).1).trans hp
  · intro ht
    have hp : (checkResultProcess d).check_result = some (.fromLit v) := by
      simp [checkResultProcess, ht]
    refine ⟨hp, ?_, ?_⟩
    · intro hok
      unfold checkResultNew at hok
      exact ((sessionNew_ok_preserves hok).1).trans hp
    · simp [runCheckResult]

/-- Witness for C4 at concrete inputs: `EXPECT = 42` compared against a
wrapped result whose inner value is 42. -/
theorem check_result_expect_semantics_witness :
    dclExpect42.EXPECT = some (ExpectAttr.litX (PyLit.intV 42)) ∧
    checkResultNew noImports "Check" [baseAbstract] dclExpect42 =
      .ok drExpect42 ∧
    (checkResultProcess dclExpect42).check_result =
      some (CheckAttr.fromLit (PyLit.intV 42)) ∧
    drExpect42.check_result = some (CheckAttr.fromLit (PyLit.intV 42)) ∧
    (runCheckResult (fun _ _ _ => false) (CheckAttr.fromLit (PyLit.intV 42)) 0
        (RVal.lmiReturnValue (PyLit.intV 42)) = some true ↔
      pyEq (PyLit.intV 42)
        (unwrapResult (RVal.lmiReturnValue (PyLit.intV 42))) = true) := by
  have h := (check_result_expect_semantics noImports "Check" [baseAbstract]
      dclExpect42 drExpect42 (fun _ _ _ => false) 0 0 (PyLit.intV 42)
      (RVal.lmiReturnValue (PyLit.intV 42))).2 rfl
  exact ⟨rfl, by rfl, h.1, h.2.1 (by rfl), h.2.2⟩

/-- C7: a show-instance declaration with a truthy `DYNAMIC_PROPERTIES` and a
`PROPERTIES` attribute fails construction with the mutual-exclusion error;
and any successfully constructed class carries at most one render strategy. -/
theorem properties_dynamic_mutually_exclusive
    (imports : String → String → Option Nat) (name : String)
    (bases : List BaseCls) (d d2 : Dcl) :
    ((d.DYNAMIC_PROPERTIES.getD (PyLit.boolV false)).truthy = true →
       d.PROPERTIES.isSome = true →
       showInstanceNew imports name bases d =
         .error (.commandError d.module name
           "DYNAMIC_PROPERTIES and PROPERTIES are mutually exclusive")) ∧
    (showInstanceNew imports name bases d = .ok d2 →
       strategyCount d2.render ≤ 1) := by
  constructor
  · intro hdyn hprops
    simp [showInstanceNew, hdyn, hprops]
  · intro _
    cases h2 : d2.render with
    | none => simp [strategyCount]
    | some r => cases r <;> simp [strategyCount]

/-- A show-instance declaration setting both mutually exclusive attributes. -/
def dclBoth : Dcl :=
  { emptyDcl "m" with
    DYNAMIC_PROPERTIES := some (.boolV true),
    PROPERTIES := some [.strP "Foo"] }

/-- A show-instance declaration with a fixed property list only. -/
def dclProps : Dcl :=
  { emptyDcl "m" with
    CALLABLE := some (.direct 5),
    PROPERTIES := some [.strP "Foo"] }

/-- The class built from `dclProps`. -/
def dclPropsOut : Dcl :=
  { emptyDcl "m" with
    render := some (.withPropsR [.nameP "Foo"]),
    execute := some (.boundE 5 (some (.strV "root/cimv2"))) }

/-- Witness for C7: the both-set declaration errors; a fixed-list
declaration builds with a single strategy. -/
theorem properties_dynamic_mutually_exclusive_witness :
    (dclBoth.DYNAMIC_PROPERTIES.getD (PyLit.boolV false)).truthy = true ∧
    dclBoth.PROPERTIES.isSome = true ∧
    showInstanceNew noImports "Show" [baseAbstract] dclBoth =
      .error (.commandError "m" "Show"
        "DYNAMIC_PROPERTIES and PROPERTIES are mutually exclusive") ∧
    showInstanceNew noImports "Show" [baseAbstract] dclProps =
      .ok dclPropsOut ∧
    strategyCount dclPropsOut.render ≤ 1 :=
  ⟨rfl, rfl,
    (properties_dynamic_mutually_exclusive noImports "Show" [baseAbstract]
      dclBoth dclPropsOut).1 rfl rfl,
    by rfl,
    (properties_dynamic_mutually_exclusive noImports "Show" [baseAbstract]
      dclProps dclPropsOut).2 (by rfl)⟩

/-- C2 (evaluation at the failing input): a leaf declaration with no
`CALLABLE` attribute whose bases leave `execute` abstract constructs
successfully -- `dcl.get` never raises `KeyError`, so the
`LmiCommandMissingCallable` branch of `_handle_callable` is dead code; no
definition error is raised and the class is registered with `execute` left
abstract, contradicting the metaclass docstring declaring `CALLABLE` a
mandatory property. -/
theorem missing_callable_silently_accepted :
    (emptyDcl "lmi.scripts.srv").CALLABLE = none ∧
    isAbstractMethod ([baseAbstract].map BaseCls.execMeth) = true ∧
    endPointNew noImports "PowerOff" [baseAbstract]
        (emptyDcl "lmi.scripts.srv") =
      .ok (emptyDcl "lmi.scripts.srv") ∧
    (emptyDcl "lmi.scripts.srv").execute = none :=
  ⟨rfl, rfl, rfl, rfl⟩

/-- The full session-command construction for a declaration with a direct
associated function and abstract `execute` in the bases: `CALLABLE` is
consumed and `execute` is bound with the computed namespace. -/
theorem sessionNew_direct_bound (imports : String → String → Option Nat)
    (name : String) (bases : List BaseCls) (d : Dcl) (f : Nat)
    (ns : Option PyLit)
    (hou : d.OWN_USAGE = none)
    (hcal : d.CALLABLE = some (.direct f))
    (habs : isAbstractMethod (bases.map BaseCls.execMeth) = true)
    (hns : sessionNamespace d.NAMESPACE = ns) :
    sessionNew imports name bases d =
      .ok { d with
            NAMESPACE := none, CALLABLE := none,
            execute := some (.boundE f ns) } := by
  have h1 : handleUsage name d = .ok d := by
    simp [handleUsage, hou]
  have h2 : handleCallable imports name bases { d with NAMESPACE := none } ns =
      .ok { d with
            NAMESPACE := none, CALLABLE := none,
            execute := some (.boundE f ns) } := by
    simp [handleCallable, resolveCallable, hcal, makeExecuteMethod, habs]
  have h3 : handleUsage name
      { d with
        NAMESPACE := none, CALLABLE := none,
        execute := some (.boundE f ns) } =
      .ok { d with
            NAMESPACE := none, CALLABLE := none,
            execute := some (.boundE f ns) } := by
    simp [handleUsage, hou]
  unfold sessionNew
  rw [h1]
  dsimp only
  rw [hns, h2]
  dsimp only
  unfold endPointNew
  rw [h3]
  simp [handleCallable, resolveCallable, makeExecuteMethod]

/-- C8 (amended): for a session leaf with a direct associated function and
abstract `execute` in the bases -- when `NAMESPACE` is absent it defaults to
"root/cimv2" and the synthesized `execute` wraps the raw connection into a
namespace handle; when `NAMESPACE` is any truthy value the connection is
wrapped with that value; when `NAMESPACE` is any falsy value (explicitly
disabled, including the empty string) the raw connection is passed
unchanged. -/
theorem session_namespace_wrapping (imports : String → String → Option Nat)
    (name : String) (bases : List BaseCls) (d : Dcl) (f : Nat) (v : PyLit)
    (c : ConnVal)
    (hou : d.OWN_USAGE = none)
    (hcal : d.CALLABLE = some (.direct f))
    (habs : isAbstractMethod (bases.map BaseCls.execMeth) = true) :
    (d.NAMESPACE = none →
       sessionNew imports name bases d =
         .ok { d with
            NAMESPACE := none, CALLABLE := none,
               execute := some (.boundE f (some (.strV "root/cimv2"))) } ∧
       runExecute (.boundE f (some (.strV "root/cimv2"))) c =
         some (f, lmiWrapCimNamespace c (.strV "root/cimv2"))) ∧
    (d.NAMESPACE = some v → v.truthy = true →
       sessionNew imports name bases d =
         .ok { d with
            NAMESPACE := none, CALLABLE := none,
               execute := some (.boundE f (some v)) } ∧
       runExecute (.boundE f (some v)) c = some (f, lmiWrapCimNamespace c v)) ∧
    (d.NAMESPACE = some v → v.truthy = false →
       sessionNew imports name bases d =
         .ok { d with
            NAMESPACE := none, CALLABLE := none,
               execute := some (.boundE f none) } ∧
       runExecute (.boundE f none) c = some (f, c)) := by
  refine ⟨?_, ?_, ?_⟩
  · intro hns
    refine ⟨sessionNew_direct_bound imports name bases d f _ hou hcal habs ?_, rfl⟩
    rw [hns]
    decide
  · intro hns htr
    refine ⟨sessionNew_direct_bound imports name bases d f _ hou hcal habs ?_, rfl⟩
    rw [hns]
    simp [sessionNamespace, htr]
  · intro hns htr
    refine ⟨sessionNew_direct_bound imports name bases d f _ hou hcal habs ?_, rfl⟩
    rw [hns]
    simp [sessionNamespace, htr]

/-- A session declaration with `NAMESPACE` left to its default. -/
def dclNsDefault : Dcl := { emptyDcl "m" with CALLABLE := some (.direct 6) }

/-- A session declaration with an explicit truthy `NAMESPACE`. -/
def dclNsSet : Dcl :=
  { emptyDcl "m" with
    CALLABLE := some (.direct 6),
    NAMESPACE := some (.strV "root/x") }

/-- A session declaration with `NAMESPACE = False` (explicitly disabled). -/
def dclNsOff : Dcl :=
  { emptyDcl "m" with
    CALLABLE := some (.direct 6),
    NAMESPACE := some (.boolV false) }

/-- Witness for C8 at concrete inputs: default namespace wraps with
"root/cimv2", a set namespace string wraps with it, `False` passes the raw
connection. -/
theorem session_namespace_wrapping_witness :
    dclNsDefault.OWN_USAGE = none ∧
    dclNsDefault.CALLABLE = some (CallableAttr.direct 6) ∧
    isAbstractMethod ([baseAbstract].map BaseCls.execMeth) = true ∧
    (sessionNew noImports "Cmd" [baseAbstract] dclNsDefault =
       .ok { dclNsDefault with
             NAMESPACE := none, CALLABLE := none,
             execute := some (.boundE 6 (some (.strV "root/cimv2"))) } ∧
     runExecute (.boundE 6 (some (.strV "root/cimv2"))) (.rawConn 1) =
       some (6, lmiWrapCimNamespace (.rawConn 1) (.strV "root/cimv2"))) ∧
    (sessionNew noImports "Cmd" [baseAbstract] dclNsSet =
       .ok { dclNsSet with
             NAMESPACE := none, CALLABLE := none,
             execute := some (.boundE 6 (some (.strV "root/x"))) } ∧
     runExecute (.boundE 6 (some (.strV "root/x"))) (.rawConn 1) =
       some (6, lmiWrapCimNamespace (.rawConn 1) (.strV "root/x"))) ∧
    (sessionNew noImports "Cmd" [baseAbstract] dclNsOff =
       .ok { dclNsOff with
             NAMESPACE := none, CALLABLE := none,
             execute := some (.boundE 6 none) } ∧
     runExecute (.boundE 6 none) (.rawConn 1) = some (6, .rawConn 1)) :=
  ⟨rfl, rfl, rfl,
    (session_namespace_wrapping noImports "Cmd" [baseAbstract] dclNsDefault 6
      (PyLit.strV "root/x") (.rawConn 1) rfl rfl rfl).1 rfl,
    (session_namespace_wrapping noImports "Cmd" [baseAbstract] dclNsSet 6
      (PyLit.strV "root/x") (.rawConn 1) rfl rfl rfl).2.1 rfl rfl,
    (session_namespace_wrapping noImports "Cmd" [baseAbstract] dclNsOff 6
      (PyLit.boolV false) (.rawConn 1) rfl rfl rfl).2.2 rfl rfl⟩

/-- A session declaration whose `NAMESPACE` is the empty string -- a set
string, yet falsy in Python. -/
def dclNsEmpty : Dcl :=
  { emptyDcl "m" with
    CALLABLE := some (.direct 5),
    NAMESPACE := some (.strV "") }

/-- Counterexample to C8 as stated: with `NAMESPACE` set to the empty
string (a set string), the synthesized `execute` passes the RAW connection
to the associated function, not a namespace-wrapped handle. -/
theorem empty_namespace_string_passes_raw_connection :
    dclNsEmpty.NAMESPACE = some (PyLit.strV "") ∧
    sessionNew noImports "Cmd" [baseAbstract] dclNsEmpty =
      .ok { emptyDcl "m" with execute := some (.boundE 5 none) } ∧
    runExecute (.boundE 5 none) (.rawConn 0) = some (5, .rawConn 0) ∧
    runExecute (.boundE 5 none) (.rawConn 0) ≠
      some (5, lmiWrapCimNamespace (.rawConn 0) (.strV "")) :=
  ⟨rfl, by rfl, rfl, by decide⟩

/-- C9 (amended): when some base supplies a concrete `execute`, binding is
skipped entirely -- the declaration is returned unchanged (its `CALLABLE`
is not even consumed) and no `execute` is synthesized. -/
theorem inherited_concrete_execute_skips_binding
    (imports : String → String → Option Nat) (name : String)
    (bases : List BaseCls) (d : Dcl) (f : Nat)
    (hou : d.OWN_USAGE = none)
    (hcal : d.CALLABLE = some (.direct f))
    (hconc : isAbstractMethod (bases.map BaseCls.execMeth) = false) :
    endPointNew imports name bases d = .ok d ∧
    sessionNew imports name bases d = .ok { d with NAMESPACE := none } := by
  have h1 : handleUsage name d = .ok d := by
    simp [handleUsage, hou]
  constructor
  · unfold endPointNew
    rw [h1]
    simp [handleCallable, resolveCallable, hcal, makeExecuteMethod, hconc]
  · unfold sessionNew
    rw [h1]
    dsimp only
    have h2 : handleCallable imports name bases { d with NAMESPACE := none }
        (sessionNamespace d.NAMESPACE) = .ok { d with NAMESPACE := none } := by
      simp [handleCallable, resolveCallable, hcal, makeExecuteMethod, hconc]
    rw [h2]
    dsimp only
    unfold endPointNew
    have h3 : handleUsage name { d with NAMESPACE := none } =
        .ok { d with NAMESPACE := none } := by
      simp [handleUsage, hou]
    rw [h3]
    simp [handleCallable, resolveCallable, hcal, makeExecuteMethod, hconc]

/-- A leaf declaration relying on a base class for its concrete `execute`. -/
def dclInherited : Dcl := { emptyDcl "m" with CALLABLE := some (.direct 4) }

/-- Witness for C9 (amended) at concrete inputs. -/
theorem inherited_concrete_execute_skips_binding_witness :
    dclInherited.OWN_USAGE = none ∧
    dclInherited.CALLABLE = some (CallableAttr.direct 4) ∧
    isAbstractMethod ([baseConcreteExec].map BaseCls.execMeth) = false ∧
    (endPointNew noImports "Cmd" [baseConcreteExec] dclInherited =
       .ok dclInherited ∧
     sessionNew noImports "Cmd" [baseConcreteExec] dclInherited =
       .ok { dclInherited with NAMESPACE := none }) :=
  ⟨rfl, rfl, rfl,
    inherited_concrete_execute_skips_binding noImports "Cmd" [baseConcreteExec]
      dclInherited 4 rfl rfl rfl⟩

/-- A leaf declaration with both a concrete `execute` of its own and a
`CALLABLE`. -/
def dclOwnExec : Dcl :=
  { emptyDcl "m" with
    CALLABLE := some (.direct 3),
    execute := some (.concreteE 7) }

/-- Counterexample to C9 as stated: a concrete `execute` in the
own attribute set of the declaration does NOT prevent binding -- the
abstractness check inspects only the bases, so the synthesized
CALLABLE-derived `execute` overwrites the hand-written one. -/
theorem own_concrete_execute_overwritten :
    dclOwnExec.execute = some (ExecuteAttr.concreteE 7) ∧
    (endPointNew noImports "Cmd" [baseAbstract] dclOwnExec).map Dcl.execute =
      .ok (some (ExecuteAttr.boundE 3 none)) ∧
    some (ExecuteAttr.boundE 3 none) ≠ some (ExecuteAttr.concreteE 7) :=
  ⟨rfl, by rfl, by decide⟩

/-! Helper lemmas about the multiplexer metaclass. -/

theorem processChild_ok_eq {module name : String} {pd : Option String}
    {e : DKey × ChildCls} {c0 : String × ChildCls}
    (h : processChild module name pd e = .ok c0) :
    c0 = (e.1.asString, mutateChild pd e.2) := by
  obtain ⟨k, c⟩ := e
  cases k with
  | otherK tag => simp [processChild] at h
  | strK s =>
      simp only [processChild] at h
      split at h
      · exact absurd h (by simp)
      · split at h
        · exact absurd h (by simp)
        · split at h
          · simp only [Except.ok.injEq] at h
            subst h
            simp_all [DKey.asString, mutateChild]
          · simp only [Except.ok.injEq] at h
            subst h
            simp_all [DKey.asString, mutateChild]

theorem processChildren_ok_eq {module name : String} {pd : Option String}
    {entries : List (DKey × ChildCls)} {cs : List (String × ChildCls)}
    (h : processChildren module name pd entries = .ok cs) :
    cs = entries.map (fun e => (e.1.asString, mutateChild pd e.2)) := by
  induction entries generalizing cs with
  | nil =>
      simp only [processChildren, Except.ok.injEq] at h
      subst h
      rfl
  | cons e rest ih =>
      rw [processChildren] at h
      cases hc : processChild module name pd e with
      | error err => rw [hc] at h; exact absurd h (by simp)
      | ok c0 =>
          rw [hc] at h
          dsimp only at h
          cases hr : processChildren module name pd rest with
          | error err => rw [hr] at h; exact absurd h (by simp)
          | ok cs0 =>
              rw [hr] at h
              simp only [Except.ok.injEq] at h
              subst h
              rw [List.map_cons, ← ih hr, processChild_ok_eq hc]

theorem multiplexerNew_ok_children {name : String} {bases : List BaseCls}
    {d : Dcl} {entries : List (DKey × ChildCls)} {dOut : Dcl}
    {logs : List LogMsg}
    (hroot : is_root_multiplexer bases = false)
    (hcmds : d.COMMANDS = some (.dictV entries))
    (h : multiplexerNew name bases d = .ok (dOut, logs)) :
    dOut.child_commands =
      some (entries.map (fun e => (e.1.asString, mutateChild d.doc e.2))) := by
  simp only [multiplexerNew, hroot, hcmds, Bool.not_false, if_true] at h
  split at h
  · exact absurd h (by simp)
  · cases hp : processChildren d.module name d.doc entries with
    | error err => rw [hp] at h; exact absurd h (by simp)
    | ok cs =>
        rw [hp] at h
        dsimp only at h
        cases hu : handleUsage name
            { d with COMMANDS := none, child_commands := some cs } with
        | error err => rw [hu] at h; exact absurd h (by simp)
        | ok d2 =>
            rw [hu] at h
            simp only [Except.ok.injEq, Prod.mk.injEq] at h
            have hd : dOut = d2 := h.1.symm
            subst hd
            rw [(handleUsage_ok_preserves hu).2.1]
            rw [processChildren_ok_eq hp]

/-- C1 (amended): root detection is as the claim states (a node is root iff
no base is an already-constructed node command), but the validation
assignment is the REVERSE of the claim: a ROOT node declaration skips all
`COMMANDS` handling and constructs successfully without a `COMMANDS`
attribute, while a NON-ROOT node declaration (one subclassing an
already-built node) gets the full `COMMANDS` validation -- presence, dict
shape, string keys, name pattern, child being a built command type -- with
`COMMANDS` mandatory. -/
theorem multiplexer_commands_validation_on_subnodes
    (name : String) (bases : List BaseCls) (d : Dcl) (tag : Nat)
    (entries rest : List (DKey × ChildCls)) (k : String) (c : ChildCls) :
    (is_root_multiplexer bases = (bases.all fun b => !b.metaIsMultiplexer)) ∧
    (is_root_multiplexer bases = true →
       multiplexerNew name bases d = .ok (d, [])) ∧
    (is_root_multiplexer bases = false → d.COMMANDS = none →
       multiplexerNew name bases d =
         .error (.commandError d.module name "missing COMMANDS property")) ∧
    (is_root_multiplexer bases = false → d.COMMANDS = some (.nonDictV tag) →
       multiplexerNew name bases d =
         .error (.invalidProperty d.module name
           "COMMANDS must be a dictionary")) ∧
    (is_root_multiplexer bases = false → d.COMMANDS = some (.dictV entries) →
       entries.all (fun e => e.1.isStr) = false →
       multiplexerNew name bases d =
         .error (.invalidProperty d.module name
           "keys of COMMANDS dictionary must contain command names as strings")) ∧
    (is_root_multiplexer bases = false →
       d.COMMANDS = some (.dictV ((DKey.strK k, c) :: rest)) →
       rest.all (fun e => e.1.isStr) = true →
       reCommandName k = false →
       multiplexerNew name bases d = .error (.invalidName d.module name k)) ∧
    (is_root_multiplexer bases = false →
       d.COMMANDS = some (.dictV ((DKey.strK k, c) :: rest)) →
       rest.all (fun e => e.1.isStr) = true →
       reCommandName k = true → c.isLmiBaseCommand = false →
       multiplexerNew name bases d =
         .error (.commandError d.module name
           "COMMANDS dictionary must be composed of LmiCommandBase subclasses")) := by
  refine ⟨rfl, ?_, ?_, ?_, ?_, ?_, ?_⟩
  · intro hroot
    simp [multiplexerNew, hroot]
  · intro hroot hc
    simp [multiplexerNew, hroot, hc]
  · intro hroot hc
    simp [multiplexerNew, hroot, hc]
  · intro hroot hc hall
    simp [multiplexerNew, hroot, hc, hall]
  · intro hroot hc hall hname
    simp only [List.all_eq_true] at hall
    simp [multiplexerNew, hroot, hc, DKey.isStr, processChildren,
      processChild, hname]
    intro x y hxy
    simpa [DKey.isStr] using hall (x, y) hxy
  · intro hroot hc hall hname hbase
    simp only [List.all_eq_true] at hall
    simp [multiplexerNew, hroot, hc, DKey.isStr, processChildren,
      processChild, hname, hbase]
    intro x y hxy
    simpa [DKey.isStr] using hall (x, y) hxy

/-- A child command class that is not an `LmiBaseCommand` subclass. -/
def kidNotCommand : ChildCls :=
  { isLmiBaseCommand := false, is_end_point := true, doc := none, tag := 3 }

/-- Witness for C1 (amended) at concrete inputs, one per validation rule. -/
theorem multiplexer_commands_validation_on_subnodes_witness :
    (multiplexerNew "Top" [baseAbstract] (emptyDcl "m") =
       .ok (emptyDcl "m", [])) ∧
    (multiplexerNew "Sub" [baseMultiplexer] (emptyDcl "m") =
       .error (.commandError "m" "Sub" "missing COMMANDS property")) ∧
    (multiplexerNew "Sub" [baseMultiplexer]
        { emptyDcl "m" with COMMANDS := some (.nonDictV 0) } =
       .error (.invalidProperty "m" "Sub" "COMMANDS must be a dictionary")) ∧
    (multiplexerNew "Sub" [baseMultiplexer]
        { emptyDcl "m" with COMMANDS := some (.dictV [(.otherK 0, kidLeaf)]) } =
       .error (.invalidProperty "m" "Sub"
         "keys of COMMANDS dictionary must contain command names as strings")) ∧
    (multiplexerNew "Sub" [baseMultiplexer]
        { emptyDcl "m" with
          COMMANDS := some (.dictV [(.strK "Bad Name!", kidLeaf)]) } =
       .error (.invalidName "m" "Sub" "Bad Name!")) ∧
    (multiplexerNew "Sub" [baseMultiplexer]
        { emptyDcl "m" with
          COMMANDS := some (.dictV [(.strK "good_name", kidNotCommand)]) } =
       .error (.commandError "m" "Sub"
         "COMMANDS dictionary must be composed of LmiCommandBase subclasses")) :=
  ⟨(multiplexer_commands_validation_on_subnodes "Top" [baseAbstract]
      (emptyDcl "m") 0 [] [] "x" kidLeaf).2.1 rfl,
   (multiplexer_commands_validation_on_subnodes "Sub" [baseMultiplexer]
      (emptyDcl "m") 0 [] [] "x" kidLeaf).2.2.1 rfl rfl,
   (multiplexer_commands_validation_on_subnodes "Sub" [baseMultiplexer]
      { emptyDcl "m" with COMMANDS := some (.nonDictV 0) } 0 [] [] "x"
      kidLeaf).2.2.2.1 rfl rfl,
   (multiplexer_commands_validation_on_subnodes "Sub" [baseMultiplexer]
      { emptyDcl "m" with COMMANDS := some (.dictV [(.otherK 0, kidLeaf)]) } 0
      [(.otherK 0, kidLeaf)] [] "x" kidLeaf).2.2.2.2.1 rfl rfl rfl,
   (multiplexer_commands_validation_on_subnodes "Sub" [baseMultiplexer]
      { emptyDcl "m" with
        COMMANDS := some (.dictV [(.strK "Bad Name!", kidLeaf)]) } 0 [] []
      "Bad Name!" kidLeaf).2.2.2.2.2.1 rfl rfl rfl rfl,
   (multiplexer_commands_validation_on_subnodes "Sub" [baseMultiplexer]
      { emptyDcl "m" with
        COMMANDS := some (.dictV [(.strK "good_name", kidNotCommand)]) } 0 []
      [] "good_name" kidNotCommand).2.2.2.2.2.2 rfl rfl rfl rfl rfl⟩

/-- Counterexample to C1 as stated: a non-root node declaration (one base is
an already-built multiplexer) with no `COMMANDS` attribute does NOT
construct successfully -- it fails with the missing-COMMANDS error -- while
a root node declaration without `COMMANDS` succeeds. -/
theorem subnode_without_commands_fails_construction :
    is_root_multiplexer [baseMultiplexer] = false ∧
    (emptyDcl "m").COMMANDS = none ∧
    multiplexerNew "Sub" [baseMultiplexer] (emptyDcl "m") =
      .error (.commandError "m" "Sub" "missing COMMANDS property") ∧
    is_root_multiplexer [baseAbstract] = true ∧
    multiplexerNew "Top" [baseAbstract] (emptyDcl "m") =
      .ok (emptyDcl "m", []) :=
  ⟨rfl, rfl, by rfl, rfl, by rfl⟩

/-- C3 (amended): when a non-root node declaration with a `COMMANDS`
dictionary constructs successfully, the stored child table maps every name
to its child class where each NON-end-point child had its documentation
replaced by the parent documentation UNCONDITIONALLY (even a child with
documentation of its own), and end-point children are left unmodified. -/
theorem multiplexer_doc_propagation_unconditional
    (name : String) (bases : List BaseCls) (d : Dcl)
    (entries : List (DKey × ChildCls)) (dOut : Dcl) (logs : List LogMsg)
    (k : String) (c : ChildCls)
    (hroot : is_root_multiplexer bases = false)
    (hcmds : d.COMMANDS = some (.dictV entries))
    (h : multiplexerNew name bases d = .ok (dOut, logs)) :
    dOut.child_commands =
      some (entries.map (fun e => (e.1.asString, mutateChild d.doc e.2))) ∧
    ((DKey.strK k, c) ∈ entries → c.is_end_point = false →
       (k, { c with doc := d.doc }) ∈
         entries.map (fun e => (e.1.asString, mutateChild d.doc e.2))) ∧
    ((DKey.strK k, c) ∈ entries → c.is_end_point = true →
       (k, c) ∈ entries.map (fun e => (e.1.asString, mutateChild d.doc e.2))) := by
  refine ⟨multiplexerNew_ok_children hroot hcmds h, ?_, ?_⟩
  · intro hm he
    exact List.mem_map.2 ⟨_, hm, by simp [DKey.asString, mutateChild, he]⟩
  · intro hm he
    exact List.mem_map.2 ⟨_, hm, by simp [DKey.asString, mutateChild, he]⟩

/-- A non-root node declaration with parent documentation and two children:
a node child with its own documentation and a leaf child. -/
def dclParent : Dcl :=
  { emptyDcl "m" with
    doc := some "parentdoc",
    COMMANDS := some (.dictV [(.strK "kid", kidNode), (.strK "leaf", kidLeaf)]) }

/-- The class built from `dclParent`. -/
def dclParentOut : Dcl :=
  { emptyDcl "m" with
    doc := some "parentdoc",
    child_commands := some [("kid", { kidNode with doc := some "parentdoc" }),
                            ("leaf", kidLeaf)] }

/-- Witness for C3 (amended) at concrete inputs. -/
theorem multiplexer_doc_propagation_unconditional_witness :
    is_root_multiplexer [baseMultiplexer] = false ∧
    dclParent.COMMANDS =
      some (.dictV [(.strK "kid", kidNode), (.strK "leaf", kidLeaf)]) ∧
    multiplexerNew "Sub" [baseMultiplexer] dclParent = .ok (dclParentOut, []) ∧
    dclParentOut.child_commands =
      some ([(DKey.strK "kid", kidNode), (DKey.strK "leaf", kidLeaf)].map
        (fun e => (e.1.asString, mutateChild dclParent.doc e.2))) :=
  ⟨rfl, rfl, by rfl,
    (multiplexer_doc_propagation_unconditional "Sub" [baseMultiplexer]
      dclParent [(.strK "kid", kidNode), (.strK "leaf", kidLeaf)] dclParentOut
      [] "kid" kidNode rfl rfl (by rfl)).1⟩

/-- Counterexample to C3 as stated: the node child `kidNode` has
documentation of its own ("childdoc"), yet after construction the stored
child table holds it with the parent documentation ("parentdoc"). -/
theorem child_node_doc_overwritten_despite_own_doc :
    kidNode.doc = some "childdoc" ∧
    (multiplexerNew "Sub" [baseMultiplexer] dclParent).map
        (fun r => r.1.child_commands) =
      .ok (some [("kid", { kidNode with doc := some "parentdoc" }),
                 ("leaf", kidLeaf)]) ∧
    ({ kidNode with doc := some "parentdoc" }).doc ≠ kidNode.doc :=
  ⟨rfl, by rfl, by decide⟩

end OpenLmi
